import Mathlib

/-!
Verification of the PVSnesLib console bring-up demo (`src/main.c`).

The repository's own code is the single `main` function: a linear sequence of
library calls with literal arguments followed by an infinite vertical-blank
wait loop.  The library primitives (`consoleInit`, `consoleDrawText`, ...) are
not part of the repository's sources, so their state semantics are modelled
from the specification's description of each primitive; every such definition
carries a doc comment saying so.  The call sequence itself — which primitive
is invoked, with which literal arguments, in which order — is translated
directly from `main.c`.
-/

/-- Modelled from the spec: a 15-bit RGB color value with five bits per
channel, as produced by the `RGB15(r,g,b)` packing used at the call site
(`consoleSetTextCol(RGB15(31,31,0), RGB15(0,0,0))`). -/
def RGB15 (r g b : Nat) : Nat := (r % 32) + (g % 32) * 32 + (b % 32) * 1024

/-- The alphabet of primitive invocations appearing in `main.c`.  Each
constructor is one library call with its literal arguments; `ret` is the
final `return` statement of `main`, kept in the alphabet so that we can
state that it never occurs in the execution trace. -/
inductive Op where
  | consoleInit : Op
  | consoleInitText (rowsOffset height : Nat) (font : String) : Op
  | consoleSetTextVramBGAdr (adr : Nat) : Op
  | consoleSetTextVramAdr (adr : Nat) : Op
  | consoleSetTextOffset (off : Nat) : Op
  | consoleSetTextCol (fg bg : Nat) : Op
  | consoleDrawText (x y : Nat) (s : String) : Op
  | setScreenOn : Op
  | waitForVBlank : Op
  | ret (v : Int) : Op
deriving DecidableEq

/-- The straight-line boot sequence of `main.c` lines 4–17, in source order
with the source's literal arguments. -/
def bootTrace : List Op :=
  [ Op.consoleInit,
    Op.consoleInitText 0 16 "snesfont",
    Op.consoleSetTextVramBGAdr 0x6800,
    Op.consoleSetTextVramAdr 0x3000,
    Op.consoleSetTextOffset 0x0100,
    Op.consoleSetTextCol (RGB15 31 31 0) (RGB15 0 0 0),
    Op.consoleDrawText 5 10 "Hello World!",
    Op.consoleDrawText 3 12 "PVSnesLib Test!",
    Op.setScreenOn ]

/-- The n-th primitive invocation of the (unique, infinite) execution trace of
`main`: the nine boot calls in source order, then `WaitForVBlank` forever,
translating `while(1) { WaitForVBlank(); }`.  The `return 0` after the loop is
unreachable and therefore absent. -/
def programOp (n : Nat) : Op :=
  if h : n < bootTrace.length then bootTrace.get ⟨n, h⟩ else Op.waitForVBlank

/-- One tile-map cell: the glyph index written there together with the
foreground and background color active at draw time (modelled from the spec:
text is rendered "using the currently active color pair and tile-index
offset"). -/
structure Cell where
  glyph : Nat
  fg : Nat
  bg : Nat
deriving DecidableEq

/-- The tile map as an association list from (column, row) to cell; later
writes are prepended and shadow earlier ones under `lookupCell`. -/
abbrev TileMap : Type := List ((Nat × Nat) × Cell)

/-- Look up the cell most recently written at position `p`. -/
def lookupCell (m : TileMap) (p : Nat × Nat) : Option Cell :=
  (m.find? (fun e => e.1 == p)).map (fun e => e.2)

/-- Modelled from the spec: the observable console/video state — the bound
font, the three video-memory layout settings, the active color pair, the tile
map contents, and the display-enable flag. -/
structure State where
  fontBound : Bool
  fontRowsOffset : Nat
  fontHeight : Nat
  fontName : String
  vramBGAdr : Nat
  vramAdr : Nat
  textOffset : Nat
  textFg : Nat
  textBg : Nat
  tileMap : TileMap
  screenOn : Bool
deriving DecidableEq

/-- Modelled from the spec: the zeroed hardware baseline that the reset
primitive establishes ("clear/initialize all console and video subsystem
state to a known baseline"). -/
def zeroState : State :=
  { fontBound := false
    fontRowsOffset := 0
    fontHeight := 0
    fontName := ""
    vramBGAdr := 0
    vramAdr := 0
    textOffset := 0
    textFg := 0
    textBg := 0
    tileMap := []
    screenOn := false }

/-- Modelled from the spec: a text draw writes glyph indices into the tile map
left-to-right starting at (x, y), one cell per character, the tile-index
offset added to every character code, colored with the active color pair. -/
def writeRun (m : TileMap) (x y off fg bg : Nat) : List Char → TileMap
  | [] => m
  | c :: cs => writeRun (((x, y), Cell.mk (c.toNat + off) fg bg) :: m) (x + 1) y off fg bg cs

/-- Modelled from the spec: the effect of each primitive on the observable
state.  Reset restores the zeroed baseline; the three layout setters and the
color setter each record their argument; a draw writes its glyph run;
`setScreenOn` raises the display-enable flag; `WaitForVBlank` suspends until
the next vertical blank and changes no observable state; `ret` would end the
program (state unchanged here; the trace never contains it). -/
def step (s : State) : Op → State
  | Op.consoleInit => zeroState
  | Op.consoleInitText r h f =>
      { s with fontBound := true, fontRowsOffset := r, fontHeight := h, fontName := f }
  | Op.consoleSetTextVramBGAdr a => { s with vramBGAdr := a }
  | Op.consoleSetTextVramAdr a => { s with vramAdr := a }
  | Op.consoleSetTextOffset o => { s with textOffset := o }
  | Op.consoleSetTextCol f b => { s with textFg := f, textBg := b }
  | Op.consoleDrawText x y str =>
      { s with tileMap := writeRun s.tileMap x y s.textOffset s.textFg s.textBg str.toList }
  | Op.setScreenOn => { s with screenOn := true }
  | Op.waitForVBlank => s
  | Op.ret _ => s

/-- The state after the first `n` operations of the execution trace. -/
def runN : Nat → State
  | 0 => zeroState
  | n + 1 => step (runN n) (programOp n)

/-- The state at the end of the boot sequence, when the idle loop is entered. -/
def runBoot : State := runN 9

/-- Modelled from the spec: what is observably visible.  Before the
display-enable step nothing is visible regardless of prior configuration;
after it, the configured tile map is committed to the visible output. -/
def visibleCells (s : State) : TileMap :=
  if s.screenOn then s.tileMap else []

theorem step_wait (s : State) : step s Op.waitForVBlank = s := rfl

theorem programOp_of_ge (n : Nat) (h : 9 ≤ n) : programOp n = Op.waitForVBlank := by
  unfold programOp
  rw [dif_neg]
  simp [bootTrace]
  omega

theorem runN_of_ge (n : Nat) (h : 9 ≤ n) : runN n = runBoot := by
  induction n with
  | zero => omega
  | succ k ih =>
    rcases Nat.lt_or_ge k 9 with hk | hk
    · have hk9 : k = 8 := by omega
      subst hk9
      rfl
    · rw [runN, programOp_of_ge k hk, step_wait, ih (by omega)]

/-! ## Index characterization of the trace -/

/-- Boolean classifier: is this operation the font binding? -/
def isFontBind : Op → Bool
  | Op.consoleInitText _ _ _ => true
  | _ => false

/-- Boolean classifier: is this operation one of the three video-memory
layout settings? -/
def isLayoutSetting : Op → Bool
  | Op.consoleSetTextVramBGAdr _ => true
  | Op.consoleSetTextVramAdr _ => true
  | Op.consoleSetTextOffset _ => true
  | _ => false

/-- Boolean classifier: is this operation the color configuration? -/
def isColorCfg : Op → Bool
  | Op.consoleSetTextCol _ _ => true
  | _ => false

/-- Boolean classifier: is this operation a text draw? -/
def isDraw : Op → Bool
  | Op.consoleDrawText _ _ _ => true
  | _ => false

/-- Boolean classifier: is this operation a return from `main`? -/
def isRet : Op → Bool
  | Op.ret _ => true
  | _ => false

/-- Boolean classifier: is this operation the display enable? -/
def isEnable : Op → Bool
  | Op.setScreenOn => true
  | _ => false

theorem reset_only_at_zero (n : Nat) (h : programOp n = Op.consoleInit) : n = 0 := by
  rcases Nat.lt_or_ge n 9 with hn | hn
  · revert h
    have hd : ∀ k, k < 9 → programOp k = Op.consoleInit → k = 0 := by decide
    exact hd n hn
  · rw [programOp_of_ge n hn] at h
    exact absurd h (by simp)

theorem fontBind_only_at_one (n : Nat) (h : isFontBind (programOp n) = true) : n = 1 := by
  rcases Nat.lt_or_ge n 9 with hn | hn
  · revert h
    have hd : ∀ k, k < 9 → isFontBind (programOp k) = true → k = 1 := by decide
    exact hd n hn
  · rw [programOp_of_ge n hn] at h
    exact absurd h (by simp [ isFontBind])

theorem layout_only_at_234 (n : Nat) (h : isLayoutSetting (programOp n) = true) :
    n = 2 ∨ n = 3 ∨ n = 4 := by
  rcases Nat.lt_or_ge n 9 with hn | hn
  · revert h
    have hd : ∀ k, k < 9 → isLayoutSetting (programOp k) = true → k = 2 ∨ k = 3 ∨ k = 4 := by
      decide
    exact hd n hn
  · rw [programOp_of_ge n hn] at h
    exact absurd h (by simp [ isLayoutSetting])

theorem colorCfg_only_at_five (n : Nat) (h : isColorCfg (programOp n) = true) : n = 5 := by
  rcases Nat.lt_or_ge n 9 with hn | hn
  · revert h
    have hd : ∀ k, k < 9 → isColorCfg (programOp k) = true → k = 5 := by decide
    exact hd n hn
  · rw [programOp_of_ge n hn] at h
    exact absurd h (by simp [ isColorCfg])

theorem draw_only_at_67 (n : Nat) (h : isDraw (programOp n) = true) : n = 6 ∨ n = 7 := by
  rcases Nat.lt_or_ge n 9 with hn | hn
  · revert h
    have hd : ∀ k, k < 9 → isDraw (programOp k) = true → k = 6 ∨ k = 7 := by decide
    exact hd n hn
  · rw [programOp_of_ge n hn] at h
    exact absurd h (by simp [ isDraw])

theorem enable_only_at_eight (n : Nat) (h : isEnable (programOp n) = true) : n = 8 := by
  rcases Nat.lt_or_ge n 9 with hn | hn
  · revert h
    have hd : ∀ k, k < 9 → isEnable (programOp k) = true → k = 8 := by decide
    exact hd n hn
  · rw [programOp_of_ge n hn] at h
    exact absurd h (by simp [ isEnable])

theorem wait_only_at_ge_nine (n : Nat) (h : programOp n = Op.waitForVBlank) : 9 ≤ n := by
  by_contra hn
  revert h
  have hd : ∀ k, k < 9 → ¬ (programOp k = Op.waitForVBlank) := by decide
  exact hd n (by omega)

/-! ## Claim theorems -/

/-- Following the spec's words (§6 and §4.1): the reference sequence with its
literal configuration values — font bound with rows-offset flag 0 and glyph
height 16, attribute-data offset 0x6800, map offset 0x3000, tile-index offset
0x0100, foreground RGB(31,31,0) and background RGB(0,0,0) as 15-bit values,
"Hello World!" at column 5 row 10, "PVSnesLib Test!" at column 3 row 12,
then display enable. -/
def specRefSequence : List Op :=
  [ Op.consoleInit,
    Op.consoleInitText 0 16 "snesfont",
    Op.consoleSetTextVramBGAdr 0x6800,
    Op.consoleSetTextVramAdr 0x3000,
    Op.consoleSetTextOffset 0x0100,
    Op.consoleSetTextCol (31 + 31 * 32 + 0 * 1024) (0 + 0 * 32 + 0 * 1024),
    Op.consoleDrawText 5 10 "Hello World!",
    Op.consoleDrawText 3 12 "PVSnesLib Test!",
    Op.setScreenOn ]

/-- Claim C2: the program invokes each primitive with exactly the literal
arguments of the spec's reference sequence — rows-offset flag 0 and glyph
height 16 for the font, 0x6800 for the attribute data base, 0x3000 for the
map base, 0x0100 for the tile-index offset, fg RGB(31,31,0) / bg RGB(0,0,0),
and the two draws "Hello World!" at (5,10) and "PVSnesLib Test!" at (3,12). -/
theorem boot_trace_matches_spec_literals : bootTrace = specRefSequence := by decide

/-- Claim C3: in the (unique) execution trace, operations occur in the strict
required order — the reset is the very first operation and precedes every
other one; the font binding precedes each of the three video-memory layout
settings; the color configuration precedes both text draws; both draws
precede the display enable; and the display enable precedes every
vertical-blank wait. -/
theorem boot_sequence_strict_order :
    programOp 0 = Op.consoleInit ∧
    (∀ n, programOp n = Op.consoleInit → n = 0) ∧
    (∀ m n, isFontBind (programOp m) = true → isLayoutSetting (programOp n) = true → m < n) ∧
    (∀ m n, isColorCfg (programOp m) = true → isDraw (programOp n) = true → m < n) ∧
    (∀ m n, isDraw (programOp m) = true → isEnable (programOp n) = true → m < n) ∧
    (∀ m n, isEnable (programOp m) = true → programOp n = Op.waitForVBlank → m < n) := by
  refine ⟨rfl, reset_only_at_zero, ?_, ?_, ?_, ?_⟩
  · intro m n hm hn
    have := fontBind_only_at_one m hm
    have := layout_only_at_234 n hn
    omega
  · intro m n hm hn
    have := colorCfg_only_at_five m hm
    have := draw_only_at_67 n hn
    omega
  · intro m n hm hn
    have := draw_only_at_67 m hm
    have := enable_only_at_eight n hn
    omega
  · intro m n hm hn
    have := enable_only_at_eight m hm
    have := wait_only_at_ge_nine n hn
    omega

/-- Witness for C3: the order theorem instantiated at concrete trace indices
(font binding at index 1 versus the layout setting at index 2). -/
theorem boot_sequence_strict_order_witness : (1 : Nat) < 2 :=
  boot_sequence_strict_order.2.2.1 1 2 (by decide) (by decide)

/-- Claim C4: after the display enable the program enters the vertical-blank
idle loop and never leaves it — every operation from index 9 on is a
vertical-blank wait (so no configuration, draw, or enable occurs after the
loop is entered, and the trace is infinite), and the final `return` of `main`
is never reached. -/
theorem idle_loop_forever :
    (∀ n, 9 ≤ n → programOp n = Op.waitForVBlank) ∧
    (∀ n v, programOp n ≠ Op.ret v) := by
  constructor
  · exact programOp_of_ge
  · intro n v h
    rcases Nat.lt_or_ge n 9 with hn | hn
    · have hd : ∀ k, k < 9 → isRet (programOp k) = false := by decide
      have := hd n hn
      rw [h] at this
      exact absurd this (by simp [ isRet])
    · rw [programOp_of_ge n hn] at h
      exact absurd h (by simp)

/-- Witness for C4: at index 9 the operation is a vertical-blank wait. -/
theorem idle_loop_forever_witness : programOp 9 = Op.waitForVBlank :=
  idle_loop_forever.1 9 (by decide)

/-- Claim C5: the display enable gates visibility — in every state of the
trace before `setScreenOn` executes (trace prefixes of length at most 8)
nothing is observably visible, no matter how many draws have already run;
immediately after `setScreenOn` the configured tile map is visible. -/
theorem screen_on_gates_visibility :
    (∀ k, k < 9 → visibleCells (runN k) = []) ∧
    visibleCells runBoot = runBoot.tileMap ∧
    runBoot.tileMap ≠ [] := by
  refine ⟨by decide, by decide, by decide⟩

/-- Witness for C5: after both draws but before the display enable (prefix of
length 8) nothing is visible. -/
theorem screen_on_gates_visibility_witness : visibleCells (runN 8) = [] :=
  screen_on_gates_visibility.1 8 (by decide)

/-! ## Video-memory regions (C6) -/

/-- Modelled from the spec: two video-RAM regions, each a base word address
with a size in words, do not overlap when one ends at or before the other
begins. -/
def regionsDisjoint (b1 s1 b2 s2 : Nat) : Prop := b1 + s1 ≤ b2 ∨ b2 + s2 ≤ b1

/-- Modelled from the spec: the tile map of a standard 32-column, 32-row
console occupies one word per cell. -/
def mapWords : Nat := 32 * 32

/-- Modelled from the spec: the video RAM capacity in words; the font's tile
data region, wherever it ends, must fit below this bound. -/
def vramWords : Nat := 0x8000

/-- Claim C6: with the configured offsets — tile attribute data at 0x6800 and
tile map at 0x3000 — the font's tile-data region and the tile-map region do
not overlap, for every font tile footprint that fits in video RAM; and the
two configured base addresses persist unchanged from configuration time (both
are set after the first four operations) for the whole run. -/
theorem vram_regions_disjoint_forever :
    (∀ fontTileWords, 0x6800 + fontTileWords ≤ vramWords →
      regionsDisjoint 0x3000 mapWords 0x6800 fontTileWords) ∧
    (∀ n, 4 ≤ n → (runN n).vramBGAdr = 0x6800 ∧ (runN n).vramAdr = 0x3000) := by
  constructor
  · intro fw _
    left
    decide
  · intro n hn
    rcases Nat.lt_or_ge n 10 with h10 | h10
    · revert hn
      have hd : ∀ k, k < 10 → 4 ≤ k →
          (runN k).vramBGAdr = 0x6800 ∧ (runN k).vramAdr = 0x3000 := by decide
      exact hd n h10
    · rw [runN_of_ge n (by omega)]
      exact ⟨by decide, by decide⟩

/-- Witness for C6: a font footprint of 0x1000 words fits in VRAM and is
disjoint from the map region, and after the full boot the two base addresses
still hold their configured values. -/
theorem vram_regions_disjoint_forever_witness :
    regionsDisjoint 0x3000 mapWords 0x6800 0x1000 ∧
    (runN 9).vramBGAdr = 0x6800 ∧ (runN 9).vramAdr = 0x3000 :=
  ⟨vram_regions_disjoint_forever.1 0x1000 (by decide),
   vram_regions_disjoint_forever.2 9 (by decide)⟩

/-! ## Order-independence of the layout setters (C7) -/

/-- The tile attribute data base address call of `main.c` line 8. -/
def opBG : Op := Op.consoleSetTextVramBGAdr 0x6800

/-- The tile map base address call of `main.c` line 9. -/
def opMap : Op := Op.consoleSetTextVramAdr 0x3000

/-- The tile-index offset call of `main.c` line 10. -/
def opOff : Op := Op.consoleSetTextOffset 0x0100

/-- Claim C7: the three video-memory layout settings are order-independent
among themselves — from any state (in particular the state right after font
binding), executing the three setter calls in any permutation of the
program's order yields the same configuration state as the program's order. -/
theorem layout_setters_order_independent (l : List Op) (h : l.Perm [opBG, opMap, opOff])
    (s : State) : l.foldl step s = [opBG, opMap, opOff].foldl step s := by
  have hlen : l.length = 3 := h.length_eq
  rcases List.length_eq_three.mp hlen with ⟨a, b, c, rfl⟩
  have ha : a ∈ [opBG, opMap, opOff] := h.subset (by simp)
  have hb : b ∈ [opBG, opMap, opOff] := h.subset (by simp)
  have hc : c ∈ [opBG, opMap, opOff] := h.subset (by simp)
  simp only [List.mem_cons, List.not_mem_nil, or_false] at ha hb hc
  rcases ha with ha | ha | ha <;> rcases hb with hb | hb | hb <;> rcases hc with hc | hc | hc <;>
    subst ha <;> subst hb <;> subst hc <;>
    first
      | rfl
      | exact absurd h (by decide)

/-- Witness for C7: the permutation that swaps the map address and the
tile-index offset produces, from the state after font binding, the same
state as the program's order. -/
theorem layout_setters_order_independent_witness :
    [opBG, opOff, opMap].foldl step (runN 2) = [opBG, opMap, opOff].foldl step (runN 2) :=
  layout_setters_order_independent [opBG, opOff, opMap] (by decide) (runN 2)

/-! ## Steady state of the idle loop (C8) -/

/-- Claim C8: once the idle loop is entered (after the first nine operations),
every vertical-blank wait leaves the entire observable state unchanged — for
every number of loop iterations the state equals the state at loop entry, and
one more wait step changes nothing. -/
theorem idle_loop_state_constant :
    ∀ k, runN (9 + k) = runBoot ∧ step (runN (9 + k)) Op.waitForVBlank = runN (9 + k) :=
  fun k => ⟨runN_of_ge (9 + k) (by omega), step_wait (runN (9 + k))⟩

/-! ## Determinism and input-freedom (C9) -/

/-- Modelled from the spec: the program takes no input.  A run is parametrized
by an arbitrary input environment (a stream of words the hardware could
supply), and no primitive of the translated program consults it, because no
call in `main.c` reads any input. -/
def runEnv (env : Nat → Nat) : Nat → State
  | 0 => zeroState
  | n + 1 => step (runEnv env n) (programOp n)

/-- Claim C9: the program is deterministic and input-free — under any two
input environments, every step of the two runs reaches the identical
configuration state (hence identical tile-map contents), and each equals the
canonical run. -/
theorem program_deterministic_input_free :
    ∀ e1 e2 : Nat → Nat, ∀ n,
      runEnv e1 n = runEnv e2 n ∧ (runEnv e1 n).tileMap = (runEnv e2 n).tileMap ∧
      runEnv e1 n = runN n := by
  have key : ∀ e : Nat → Nat, ∀ n, runEnv e n = runN n := by
    intro e n
    induction n with
    | zero => rfl
    | succ k ih =>
      show step (runEnv e k) (programOp k) = step (runN k) (programOp k)
      rw [ih]
  intro e1 e2 n
  rw [key e1 n, key e2 n]
  exact ⟨rfl, rfl, rfl⟩

/-! ## Draws stay in bounds (C10) -/

/-- Modelled from the spec: a text draw stays within the physical bounds of a
standard 32-column, 32-row tile map when its whole glyph run fits on its row. -/
def drawInBounds : Op → Bool
  | Op.consoleDrawText x y s => decide (x + s.length ≤ 32) && decide (y < 32)
  | _ => true

/-- Claim C10: both text draws stay strictly within the bounds of a standard
32-column console — every operation of the trace is an in-bounds operation,
"Hello World!" (12 characters) starting at column 5 ends at column 16,
"PVSnesLib Test!" (15 characters) starting at column 3 ends at column 17, and
rows 10 and 12 lie inside the 32-row map, so the undefined-behavior case of
writing past the tile-map bounds is unreachable. -/
theorem draws_within_tilemap_bounds :
    (∀ n, drawInBounds (programOp n) = true) ∧
    5 + "Hello World!".length - 1 = 16 ∧
    3 + "PVSnesLib Test!".length - 1 = 17 ∧
    (10 : Nat) < 32 ∧ (12 : Nat) < 32 := by
  refine ⟨?_, by decide, by decide, by decide, by decide⟩
  intro n
  rcases Nat.lt_or_ge n 9 with hn | hn
  · revert hn
    have hd : ∀ k, k < 9 → drawInBounds (programOp k) = true := by decide
    exact hd n
  · rw [programOp_of_ge n hn]
    rfl

/-! ## End-to-end boot scenario (C1) -/

/-- The characters of the first drawn string, `main.c` line 14. -/
def hello : List Char := "Hello World!".toList

/-- The characters of the second drawn string, `main.c` line 15. -/
def pvsTest : List Char := "PVSnesLib Test!".toList

/-- Following the spec's words: the tile map expected after the boot
sequence — exactly two text runs, "Hello World!" on row 10 in columns 5–16
and "PVSnesLib Test!" on row 12 in columns 3–17, each cell holding the
character's glyph index (character code plus the 0x0100 tile-index offset)
with foreground RGB(31,31,0) and background RGB(0,0,0), every other cell
empty. -/
def expectedCell (p : Nat × Nat) : Option Cell :=
  if p.2 = 10 ∧ 5 ≤ p.1 ∧ p.1 < 5 + hello.length then
    some (Cell.mk ((hello.getD (p.1 - 5) 'H').toNat + 0x0100) (RGB15 31 31 0) (RGB15 0 0 0))
  else if p.2 = 12 ∧ 3 ≤ p.1 ∧ p.1 < 3 + pvsTest.length then
    some (Cell.mk ((pvsTest.getD (p.1 - 3) 'P').toNat + 0x0100) (RGB15 31 31 0) (RGB15 0 0 0))
  else none

set_option maxRecDepth 4000

/-- Claim C1: the boot sequence executed with the literal values of the
reference configuration leaves a tile map holding exactly the two text runs
and nothing else — every cell of the 32×32 map agrees with the expected map
(the "Hello World!" run on row 10 from column 5 and the "PVSnesLib Test!" run
on row 12 from column 3, in fg RGB(31,31,0) on bg RGB(0,0,0)), every tile-map
entry lies inside one of the two runs, the second draw leaves every cell
written by the first draw unchanged, and the display is enabled. -/
theorem boot_leaves_exactly_two_text_runs :
    (∀ x, x < 32 → ∀ y, y < 32 → lookupCell runBoot.tileMap (x, y) = expectedCell (x, y)) ∧
    (∀ e ∈ runBoot.tileMap, (expectedCell e.1).isSome = true) ∧
    (∀ x, x < 32 → ∀ y, y < 32 → lookupCell (runN 7).tileMap (x, y) ≠ none →
      lookupCell (runN 8).tileMap (x, y) = lookupCell (runN 7).tileMap (x, y)) ∧
    runBoot.screenOn = true := by
  refine ⟨by decide, by decide, by decide, by decide⟩

/-- Witness for C1: the cell at column 5, row 10 after boot holds the glyph
of the letter H of "Hello World!" with the configured colors. -/
theorem boot_leaves_exactly_two_text_runs_witness :
    lookupCell runBoot.tileMap (5, 10) = expectedCell (5, 10) :=
  boot_leaves_exactly_two_text_runs.1 5 (by decide) 10 (by decide)
